import Mathlib

/-!
Verification of the fire-type classification pipeline in `src/app.py`.

The source is a single-page app that collects six readings
(brightness, bright_t31, frp, scan, track, confidence), validates the
three continuous readings against advisory ranges, maps the categorical
confidence to a numeric code, assembles a fixed-order feature vector,
scales it, predicts a fire-type code, maps the code to a display label,
and appends the outcome to a bounded per-session history.

Floats are modelled as rationals (ℚ); the opaque classifier and scaler
are modelled as an abstract `ModelStore` whose `transform` and `predict`
may fail and whose `predict_proba` may be unsupported.
-/

/-- Raw values of the six input widgets (app.py lines 113-120). -/
structure RawInput where
  brightness : ℚ
  bright_t31 : ℚ
  frp : ℚ
  scan : ℚ
  track : ℚ
  confidence : String
deriving DecidableEq

/-- One entry of `st.session_state.history` (app.py line 197):
a result label and a confidence value. -/
structure HistoryEntry where
  result : String
  confidence : ℚ
deriving DecidableEq

/-- The opaque model store: the scaler's `transform` and the model's
`predict` may raise (modelled as `Except` with the exception text), and
`predict_proba` may be unsupported (`none`, the `AttributeError` branch
at app.py line 179) or return a row of class probabilities. -/
structure ModelStore where
  transform : List ℚ → Except String (List ℚ)
  predict : List ℚ → Except String Int
  predict_proba : List ℚ → Option (List ℚ)

/-- Per-request failure modes of the pipeline: a missing confidence key
(KeyError at app.py line 150), a scaling failure (lines 165-169), or a
prediction failure (lines 251-252). The message field carries the text
shown by `st.error`. -/
inductive PipelineError where
  | invalidConfidence (key : String)
  | scalingError (message : String)
  | predictionError (message : String)
deriving DecidableEq

/-- The successful part of a response: the display label and the
confidence that is shown (absent when `max_proba` is falsy,
app.py lines 192-194). -/
structure SuccessData where
  label : String
  shownConfidence : Option ℚ
deriving DecidableEq

/-- The full outcome of one submission: the advisory warnings, the
success-or-error outcome, and the history after the request. -/
structure SubmissionResult where
  warnings : List String
  outcome : Except PipelineError SuccessData
  history : List HistoryEntry

/-- Confidence mapping, app.py line 149:
`confidence_map = {"low": 0, "nominal": 1, "high": 2}`; the lookup
`confidence_map[confidence]` raises KeyError on any other key, modelled
as `none`. -/
def confidence_map (confidence : String) : Option ℚ :=
  if confidence = "low" then some 0
  else if confidence = "nominal" then some 1
  else if confidence = "high" then some 2
  else none

/-- The inverse of `confidence_map` on its numeric codes, used to state
that the mapping is a bijection between the three levels and {0,1,2}. -/
def confidence_inv (code : ℚ) : Option String :=
  if code = 0 then some "low"
  else if code = 1 then some "nominal"
  else if code = 2 then some "high"
  else none

/-- Input validation, app.py lines 153-159: each of the three range
checks appends one advisory warning; scan, track and confidence are
never checked. -/
def warnings (brightness bright_t31 frp : ℚ) : List String :=
  (if brightness < 300 ∨ brightness > 450 then
    ["⚠️ Brightness outside 300–450 K!"] else []) ++
  (if bright_t31 < 290 ∨ bright_t31 > 400 then
    ["⚠️ Brightness T31 outside 290–400 K!"] else []) ++
  (if frp < 0 ∨ frp > 100 then
    ["⚠️ FRP outside 0–100 MW!"] else [])

/-- Feature assembly, app.py line 164:
`input_array = np.array([[brightness, bright_t31, frp, scan, track, confidence_val]])`. -/
def input_array (inp : RawInput) (confidence_val : ℚ) : List ℚ :=
  [inp.brightness, inp.bright_t31, inp.frp, inp.scan, inp.track, confidence_val]

/-- Label mapping, app.py lines 183-188:
`fire_types.get(prediction, "Unknown Fire Type ❓")` over the dict
`{0: "Vegetation Fire 🌿🔥", 2: "Static Land Source 🏭🔥", 3: "Offshore Fire 🌊🔥"}`. -/
def fire_types (prediction : Int) : String :=
  if prediction = 0 then "Vegetation Fire 🌿🔥"
  else if prediction = 2 then "Static Land Source 🏭🔥"
  else if prediction = 3 then "Offshore Fire 🌊🔥"
  else "Unknown Fire Type ❓"

/-- The confidence stored in the history entry, app.py line 197:
`max_proba if max_proba else 1.0` — a truthiness test, so both `None`
and `0.0` are replaced by `1.0`. -/
def historyConfidence (max_proba : Option ℚ) : ℚ :=
  match max_proba with
  | some m => if m ≠ 0 then m else 1
  | none => 1

/-- The confidence shown in the response, app.py lines 192-194:
`if max_proba:` — shown only when `max_proba` is truthy. -/
def shownConfidence (max_proba : Option ℚ) : Option ℚ :=
  match max_proba with
  | some m => if m ≠ 0 then some m else none
  | none => none

/-- History recording, app.py lines 197-199: append the entry, then if
the length exceeds 10 pop the entry at index 0. -/
def recordHistory (hist : List HistoryEntry) (entry : HistoryEntry) :
    List HistoryEntry :=
  let h := hist ++ [entry]
  if h.length > 10 then h.drop 1 else h

/-- The `max_proba` computation, app.py lines 175-181: if the model has
no `predict_proba` the AttributeError branch sets `max_proba = None`;
otherwise `max_proba = max(prediction_proba)`, where Python `max` on an
empty row raises (caught by the outer handler at line 251). -/
def probaResult (ms : ModelStore) (scaled : List ℚ) :
    Except String (Option ℚ) :=
  match ms.predict_proba scaled with
  | none => .ok none
  | some ps =>
    match ps.max? with
    | none => .error "max() arg is an empty sequence"
    | some m => .ok (some m)

/-- The scale-and-predict phase, app.py lines 165-199: `transform`
failure is reported as a scaling error and stops the request (lines
165-169); `predict` or `max` failure is reported as a prediction error
(lines 251-252); on success the label is looked up, the shown confidence
computed, and the history entry appended with FIFO trimming. The history
is returned unchanged on any failure. -/
def runInference (ms : ModelStore) (vec : List ℚ)
    (hist : List HistoryEntry) :
    Except PipelineError SuccessData × List HistoryEntry :=
  match ms.transform vec with
  | .error e =>
    (.error (.scalingError ("🚨 Error scaling input data: " ++ e)), hist)
  | .ok scaled =>
    match ms.predict scaled with
    | .error e =>
      (.error (.predictionError ("🚨 Error during prediction: " ++ e)), hist)
    | .ok prediction =>
      match probaResult ms scaled with
      | .error e =>
        (.error (.predictionError ("🚨 Error during prediction: " ++ e)), hist)
      | .ok max_proba =>
        let result := fire_types prediction
        (.ok ⟨result, shownConfidence max_proba⟩,
         recordHistory hist ⟨result, historyConfidence max_proba⟩)

/-- One full submission, app.py lines 147-199: map the confidence level
(KeyError if the key is absent), compute the advisory warnings, assemble
the fixed-order feature vector, and run inference. Warnings never gate
the inference call. -/
def processSubmission (ms : ModelStore) (inp : RawInput)
    (hist : List HistoryEntry) : SubmissionResult :=
  match confidence_map inp.confidence with
  | none => ⟨[], .error (.invalidConfidence inp.confidence), hist⟩
  | some confidence_val =>
    let r := runInference ms (input_array inp confidence_val) hist
    ⟨warnings inp.brightness inp.bright_t31 inp.frp, r.1, r.2⟩

/-- Session state touched by the reset handler: the six input fields and
the prediction history (app.py lines 71-72 and 129-136). -/
structure SessionState where
  brightness : ℚ
  bright_t31 : ℚ
  frp : ℚ
  scan : ℚ
  track : ℚ
  confidence : String
  history : List HistoryEntry

/-- The reset handler, app.py lines 129-136: restores the six input
fields to their defaults; nothing else is assigned. -/
def resetState (s : SessionState) : SessionState :=
  { s with
    brightness := 300
    bright_t31 := 290
    frp := 15
    scan := 1
    track := 1
    confidence := "low" }

/-- A model store whose scaler and model always succeed, predicting
class 0 with no probability support; used for concrete runs. -/
def constStore : ModelStore where
  transform := fun v => .ok v
  predict := fun _ => .ok 0
  predict_proba := fun _ => none

/-- A model store whose scaler raises with message "boom". -/
def failStore : ModelStore where
  transform := fun _ => .error "boom"
  predict := fun _ => .ok 0
  predict_proba := fun _ => none

/-- A model store supporting probabilities whose top class probability
is exactly 0. -/
def zeroProbaStore : ModelStore where
  transform := fun v => .ok v
  predict := fun _ => .ok 0
  predict_proba := fun _ => some [0]

example : confidence_map "nominal" = some 1 := by decide
example : warnings 320 300 20 = [] := by decide
example : fire_types 1 = "Unknown Fire Type ❓" := by decide
example : recordHistory (List.replicate 10 ⟨"x", 1⟩) ⟨"y", 2⟩ =
    (List.replicate 10 (⟨"x", 1⟩ : HistoryEntry)).drop 1 ++ [⟨"y", 2⟩] := by decide

/-- C1: for every submission whose confidence level is in the mapping,
the feature vector passed to the scaler is exactly
`[brightness, bright_t31, frp, scan, track, confidence_code]` in that
fixed order (the submission outcome is that of inference on exactly that
vector); for the input
{brightness:320, bright_t31:300, frp:20, scan:1, track:1,
confidence:"nominal"} the assembled vector is [320, 300, 20, 1, 1, 1]
and no warnings are produced. -/
theorem feature_vector_fixed_order :
    (∀ (inp : RawInput) (cval : ℚ), confidence_map inp.confidence = some cval →
      ∀ (ms : ModelStore) (hist : List HistoryEntry),
        input_array inp cval =
          [inp.brightness, inp.bright_t31, inp.frp, inp.scan, inp.track, cval] ∧
        (processSubmission ms inp hist).outcome =
          (runInference ms (input_array inp cval) hist).1) ∧
    input_array ⟨320, 300, 20, 1, 1, "nominal"⟩ 1 = [320, 300, 20, 1, 1, 1] ∧
    confidence_map "nominal" = some 1 ∧
    warnings 320 300 20 = [] := by
  refine ⟨?_, by decide, by decide, by decide⟩
  intro inp cval h ms hist
  refine ⟨rfl, ?_⟩
  simp [processSubmission, h]

/-- C1 witness: the general part applied to the scenario input and a
concrete model store. -/
theorem feature_vector_fixed_order_witness :
    input_array ⟨320, 300, 20, 1, 1, "nominal"⟩ 1 =
      [(320 : ℚ), 300, 20, 1, 1, 1] ∧
    (processSubmission constStore ⟨320, 300, 20, 1, 1, "nominal"⟩ []).outcome =
      (runInference constStore
        (input_array ⟨320, 300, 20, 1, 1, "nominal"⟩ 1) []).1 :=
  feature_vector_fixed_order.1 ⟨320, 300, 20, 1, 1, "nominal"⟩ 1 rfl constStore []

/-- C2 counterexample: prediction code 0 does not map to the bare string
"Vegetation Fire"; the label carries a decorative emoji suffix. -/
theorem fire_label_counterexample : fire_types 0 ≠ "Vegetation Fire" := by
  decide

/-- C2 (amended): the label mapping is a pure total function: code 0
maps to "Vegetation Fire 🌿🔥", code 2 to "Static Land Source 🏭🔥",
code 3 to "Offshore Fire 🌊🔥", and every other integer (including 1, 4
and -1) maps to "Unknown Fire Type ❓". -/
theorem fire_label_total_mapping :
    fire_types 0 = "Vegetation Fire 🌿🔥" ∧
    fire_types 2 = "Static Land Source 🏭🔥" ∧
    fire_types 3 = "Offshore Fire 🌊🔥" ∧
    (∀ code : Int, code ≠ 0 → code ≠ 2 → code ≠ 3 →
      fire_types code = "Unknown Fire Type ❓") ∧
    fire_types 1 = "Unknown Fire Type ❓" ∧
    fire_types 4 = "Unknown Fire Type ❓" ∧
    fire_types (-1) = "Unknown Fire Type ❓" := by
  refine ⟨rfl, rfl, rfl, ?_, rfl, rfl, rfl⟩
  intro code h0 h2 h3
  simp [fire_types, h0, h2, h3]

/-- C2 witness: the default branch applied at code 5. -/
theorem fire_label_total_mapping_witness :
    fire_types 5 = "Unknown Fire Type ❓" :=
  fire_label_total_mapping.2.2.2.1 5 (by decide) (by decide) (by decide)

/-- C3: the history never exceeds 10 entries, and eviction is FIFO: from
any state of length at most 10 the recorded history has length at most
10, and from a state of exactly 10 entries appending an 11th removes the
entry at index 0, leaving entries 1..10 in insertion order with the
newest entry last. -/
theorem history_bounded_fifo :
    (∀ (hist : List HistoryEntry) (entry : HistoryEntry), hist.length ≤ 10 →
      (recordHistory hist entry).length ≤ 10) ∧
    (∀ (hist : List HistoryEntry) (entry : HistoryEntry), hist.length = 10 →
      recordHistory hist entry = hist.drop 1 ++ [entry] ∧
      (recordHistory hist entry).length = 10) := by
  constructor
  · intro hist entry h
    simp only [recordHistory]
    split
    · simp
      omega
    · next hc =>
      simp only [List.length_append, List.length_cons, List.length_nil] at hc ⊢
      omega
  · intro hist entry h
    have heq : recordHistory hist entry = hist.drop 1 ++ [entry] := by
      simp only [recordHistory]
      rw [if_pos (by simp [h]), List.drop_append_of_le_length (by omega)]
    refine ⟨heq, ?_⟩
    rw [heq]
    simp [h]

/-- C3 witness: the FIFO step applied to a concrete 10-entry history. -/
theorem history_bounded_fifo_witness :
    recordHistory (List.replicate 10 ⟨"x", 1⟩) ⟨"y", 2⟩ =
      (List.replicate 10 (⟨"x", 1⟩ : HistoryEntry)).drop 1 ++ [⟨"y", 2⟩] ∧
    (recordHistory (List.replicate 10 ⟨"x", 1⟩) ⟨"y", 2⟩).length = 10 :=
  history_bounded_fifo.2 (List.replicate 10 ⟨"x", 1⟩) ⟨"y", 2⟩ (by decide)

/-- C4: the confidence-level mapping is a bijection between
{low, nominal, high} and {0, 1, 2}: low maps to 0, nominal to 1, high
to 2; every defined mapping is one of those three (so each numeric code
has exactly one preimage); and the round trip through the mapping and
its inverse is the identity on all three values in both directions. -/
theorem confidence_bijection :
    confidence_map "low" = some 0 ∧
    confidence_map "nominal" = some 1 ∧
    confidence_map "high" = some 2 ∧
    (∀ (s : String) (c : ℚ), confidence_map s = some c →
      (s = "low" ∧ c = 0) ∨ (s = "nominal" ∧ c = 1) ∨ (s = "high" ∧ c = 2)) ∧
    (confidence_map "low").bind confidence_inv = some "low" ∧
    (confidence_map "nominal").bind confidence_inv = some "nominal" ∧
    (confidence_map "high").bind confidence_inv = some "high" ∧
    (confidence_inv 0).bind confidence_map = some 0 ∧
    (confidence_inv 1).bind confidence_map = some 1 ∧
    (confidence_inv 2).bind confidence_map = some 2 := by
  refine ⟨by decide, by decide, by decide, ?_, by decide, by decide,
    by decide, by decide, by decide, by decide⟩
  intro s c h
  unfold confidence_map at h
  split_ifs at h with h1 h2 h3 <;> simp_all

/-- C4 witness: the unique-preimage part applied at "nominal". -/
theorem confidence_bijection_witness :
    ("nominal" = "low" ∧ (1 : ℚ) = 0) ∨ ("nominal" = "nominal" ∧ (1 : ℚ) = 1) ∨
    ("nominal" = "high" ∧ (1 : ℚ) = 2) :=
  confidence_bijection.2.2.2.1 "nominal" 1 rfl

/-- C5: for every input with brightness in [300, 450], bright_t31 in
[290, 400] and frp in [0, 100] (boundaries included), the validator
produces an empty warnings list, for all values of scan, track and
confidence (the validator never reads those fields, and the submission's
warnings are empty for any mapped confidence level). -/
theorem validator_in_range_no_warnings :
    ∀ (inp : RawInput) (cval : ℚ) (ms : ModelStore) (hist : List HistoryEntry),
      300 ≤ inp.brightness → inp.brightness ≤ 450 →
      290 ≤ inp.bright_t31 → inp.bright_t31 ≤ 400 →
      0 ≤ inp.frp → inp.frp ≤ 100 →
      confidence_map inp.confidence = some cval →
      warnings inp.brightness inp.bright_t31 inp.frp = [] ∧
      (processSubmission ms inp hist).warnings = [] := by
  intro inp cval ms hist h1 h2 h3 h4 h5 h6 hc
  have hw : warnings inp.brightness inp.bright_t31 inp.frp = [] := by
    unfold warnings
    rw [if_neg (by simp only [not_or, not_lt]; exact ⟨h1, h2⟩),
        if_neg (by simp only [not_or, not_lt]; exact ⟨h3, h4⟩),
        if_neg (by simp only [not_or, not_lt]; exact ⟨h5, h6⟩)]
    rfl
  refine ⟨hw, ?_⟩
  simp [processSubmission, hc, hw]

/-- C5 witness: the boundary input
{brightness:300, bright_t31:400, frp:100, scan:5, track:7,
confidence:"high"} yields no warnings. -/
theorem validator_in_range_no_warnings_witness :
    warnings 300 400 100 = [] ∧
    (processSubmission constStore ⟨300, 400, 100, 5, 7, "high"⟩ []).warnings = [] :=
  validator_in_range_no_warnings ⟨300, 400, 100, 5, 7, "high"⟩ 2 constStore []
    (by norm_num) (by norm_num) (by norm_num) (by norm_num) (by norm_num)
    (by norm_num) rfl

/-- C6: for brightness = 500 with bright_t31 in [290, 400] and frp in
[0, 100], the validator produces exactly one warning, that warning
mentions Brightness, and the pipeline still proceeds: with any model
store the submission outcome is exactly the inference outcome on the
assembled vector (warnings never block inference), and with a concrete
working store the prediction succeeds while the warning stands. -/
theorem brightness_500_single_warning :
    ∀ (t31 frpv : ℚ), 290 ≤ t31 → t31 ≤ 400 → 0 ≤ frpv → frpv ≤ 100 →
    ∀ (sc tr : ℚ) (hist : List HistoryEntry),
      warnings 500 t31 frpv = ["⚠️ Brightness outside 300–450 K!"] ∧
      (warnings 500 t31 frpv).length = 1 ∧
      "⚠️ Brightness outside 300–450 K!" =
        "⚠️ " ++ "Brightness" ++ " outside 300–450 K!" ∧
      (∀ ms : ModelStore,
        (processSubmission ms ⟨500, t31, frpv, sc, tr, "nominal"⟩ hist).outcome =
          (runInference ms [500, t31, frpv, sc, tr, 1] hist).1) ∧
      (processSubmission constStore ⟨500, t31, frpv, sc, tr, "nominal"⟩ hist).outcome =
        .ok ⟨fire_types 0, none⟩ ∧
      (processSubmission constStore ⟨500, t31, frpv, sc, tr, "nominal"⟩ hist).warnings =
        ["⚠️ Brightness outside 300–450 K!"] := by
  intro t31 frpv h3 h4 h5 h6 sc tr hist
  have hc : confidence_map "nominal" = some 1 := rfl
  have hw : warnings 500 t31 frpv = ["⚠️ Brightness outside 300–450 K!"] := by
    unfold warnings
    rw [if_pos (Or.inr (by norm_num)),
        if_neg (by simp only [not_or, not_lt]; exact ⟨h3, h4⟩),
        if_neg (by simp only [not_or, not_lt]; exact ⟨h5, h6⟩)]
    rfl
  refine ⟨hw, by rw [hw]; rfl, rfl, ?_, ?_, ?_⟩
  · intro ms
    simp [processSubmission, hc, input_array]
  · simp [processSubmission, hc, input_array, runInference, constStore,
      probaResult, shownConfidence]
  · simp [processSubmission, hc, hw]

/-- C6 witness: the theorem applied at bright_t31 = 300, frp = 20,
scan = track = 1 and an empty history. -/
theorem brightness_500_single_warning_witness :
    warnings 500 300 20 = ["⚠️ Brightness outside 300–450 K!"] ∧
    (warnings 500 300 20).length = 1 ∧
    "⚠️ Brightness outside 300–450 K!" =
      "⚠️ " ++ "Brightness" ++ " outside 300–450 K!" ∧
    (∀ ms : ModelStore,
      (processSubmission ms ⟨500, 300, 20, 1, 1, "nominal"⟩ []).outcome =
        (runInference ms [500, 300, 20, 1, 1, 1] []).1) ∧
    (processSubmission constStore ⟨500, 300, 20, 1, 1, "nominal"⟩ []).outcome =
      .ok ⟨fire_types 0, none⟩ ∧
    (processSubmission constStore ⟨500, 300, 20, 1, 1, "nominal"⟩ []).warnings =
      ["⚠️ Brightness outside 300–450 K!"] :=
  brightness_500_single_warning 300 20 (by norm_num) (by norm_num)
    (by norm_num) (by norm_num) 1 1 []

/-- C7: if the scaler's transform raises on the assembled vector, the
request fails with a scaling error whose message is the fixed scaling
prefix followed by the underlying cause text, the history is left
unchanged by that request, and the pipeline remains usable: any next
request behaves exactly as if the failed request had never happened. -/
theorem scaling_error_aborts :
    ∀ (ms : ModelStore) (inp : RawInput) (hist : List HistoryEntry)
      (cval : ℚ) (e : String),
      confidence_map inp.confidence = some cval →
      ms.transform (input_array inp cval) = .error e →
      (processSubmission ms inp hist).outcome =
        .error (.scalingError ("🚨 Error scaling input data: " ++ e)) ∧
      (processSubmission ms inp hist).history = hist ∧
      (∀ (inp2 : RawInput) (ms2 : ModelStore),
        processSubmission ms2 inp2 ((processSubmission ms inp hist).history) =
          processSubmission ms2 inp2 hist) := by
  intro ms inp hist cval e hc ht
  have hh : (processSubmission ms inp hist).history = hist := by
    simp [processSubmission, hc, runInference, ht]
  refine ⟨?_, hh, ?_⟩
  · simp [processSubmission, hc, runInference, ht]
  · intro inp2 ms2
    rw [hh]

/-- C7 witness: a store whose transform raises "boom" on the scenario
input leaves the empty history empty and reports the scaling error. -/
theorem scaling_error_aborts_witness :
    (processSubmission failStore ⟨320, 300, 20, 1, 1, "nominal"⟩ []).outcome =
      .error (.scalingError ("🚨 Error scaling input data: " ++ "boom")) ∧
    (processSubmission failStore ⟨320, 300, 20, 1, 1, "nominal"⟩ []).history = [] ∧
    (∀ (inp2 : RawInput) (ms2 : ModelStore),
      processSubmission ms2 inp2
          ((processSubmission failStore ⟨320, 300, 20, 1, 1, "nominal"⟩ []).history) =
        processSubmission ms2 inp2 []) :=
  scaling_error_aborts failStore ⟨320, 300, 20, 1, 1, "nominal"⟩ [] 1 "boom" rfl rfl

/-- C8: when the model does not support probability scoring
(predict_proba is unavailable), the prediction still succeeds, the
response confidence is absent, and the history entry recorded for that
prediction stores confidence 1. -/
theorem no_proba_confidence_absent :
    ∀ (ms : ModelStore) (inp : RawInput) (hist : List HistoryEntry)
      (cval : ℚ) (scaled : List ℚ) (pred : Int),
      confidence_map inp.confidence = some cval →
      ms.transform (input_array inp cval) = .ok scaled →
      ms.predict scaled = .ok pred →
      ms.predict_proba scaled = none →
      (processSubmission ms inp hist).outcome = .ok ⟨fire_types pred, none⟩ ∧
      (processSubmission ms inp hist).history =
        recordHistory hist ⟨fire_types pred, 1⟩ := by
  intro ms inp hist cval scaled pred hc ht hp hq
  constructor <;>
    simp [processSubmission, hc, runInference, ht, hp, probaResult, hq,
      shownConfidence, historyConfidence]

/-- C8 witness: a store without predict_proba on the scenario input
succeeds with an absent confidence and records confidence 1. -/
theorem no_proba_confidence_absent_witness :
    (processSubmission constStore ⟨320, 300, 20, 1, 1, "nominal"⟩ []).outcome =
      .ok ⟨fire_types 0, none⟩ ∧
    (processSubmission constStore ⟨320, 300, 20, 1, 1, "nominal"⟩ []).history =
      recordHistory [] ⟨fire_types 0, 1⟩ :=
  no_proba_confidence_absent constStore ⟨320, 300, 20, 1, 1, "nominal"⟩ [] 1
    [320, 300, 20, 1, 1, 1] 0 rfl rfl rfl rfl

/-- C9: if the model supports predict_proba but the maximum class
probability is exactly 0, the confidence is not displayed and the
history entry records confidence 1 rather than 0, because the code tests
the probability for truthiness rather than for absence. -/
theorem zero_proba_treated_as_absent :
    ∀ (ms : ModelStore) (inp : RawInput) (hist : List HistoryEntry)
      (cval : ℚ) (scaled : List ℚ) (pred : Int) (ps : List ℚ),
      confidence_map inp.confidence = some cval →
      ms.transform (input_array inp cval) = .ok scaled →
      ms.predict scaled = .ok pred →
      ms.predict_proba scaled = some ps →
      ps.max? = some 0 →
      (processSubmission ms inp hist).outcome = .ok ⟨fire_types pred, none⟩ ∧
      (processSubmission ms inp hist).history =
        recordHistory hist ⟨fire_types pred, 1⟩ := by
  intro ms inp hist cval scaled pred ps hc ht hp hq hm
  constructor <;>
    simp [processSubmission, hc, runInference, ht, hp, probaResult, hq, hm,
      shownConfidence, historyConfidence]

/-- C9 witness: a store whose probability row is [0] on the scenario
input hides the confidence and records 1 in the history. -/
theorem zero_proba_treated_as_absent_witness :
    (processSubmission zeroProbaStore ⟨320, 300, 20, 1, 1, "nominal"⟩ []).outcome =
      .ok ⟨fire_types 0, none⟩ ∧
    (processSubmission zeroProbaStore ⟨320, 300, 20, 1, 1, "nominal"⟩ []).history =
      recordHistory [] ⟨fire_types 0, 1⟩ :=
  zero_proba_treated_as_absent zeroProbaStore ⟨320, 300, 20, 1, 1, "nominal"⟩ []
    1 [320, 300, 20, 1, 1, 1] 0 [0] rfl rfl rfl rfl rfl

/-- C10: the reset operation restores exactly the six input fields to
their defaults (brightness 300, bright_t31 290, frp 15, scan 1, track 1,
confidence "low") and leaves the prediction history unchanged. -/
theorem reset_frame_effect :
    ∀ s : SessionState,
      (resetState s).history = s.history ∧
      (resetState s).brightness = 300 ∧
      (resetState s).bright_t31 = 290 ∧
      (resetState s).frp = 15 ∧
      (resetState s).scan = 1 ∧
      (resetState s).track = 1 ∧
      (resetState s).confidence = "low" := by
  intro s
  exact ⟨rfl, rfl, rfl, rfl, rfl, rfl, rfl⟩
